import Mathlib

/-!
Verification development for the slack-helper-bot conversation/action core.

The Python sources are shallowly embedded as pure Lean functions over an
explicit relational store (`DB`).  Each SQLAlchemy session body becomes a
function from the store (plus the wall clock, passed explicitly in place of
`datetime.utcnow()`) to a new store together with the value the Python
function returns; a body that can raise is embedded with `Except`.  Times
are naturals counting seconds, so `timedelta(minutes=m)` is `60 * m`.
-/

namespace SlackHelperBot

/-! ## Enumerations (src/models/conversation.py, action.py, feedback.py) -/

/-- `ConversationStatus` from src/models/conversation.py. -/
inductive ConversationStatus where
  | ACTIVE
  | WAITING_APPROVAL
  | RESOLVED
  | ESCALATED
  | CLOSED
deriving DecidableEq, Repr

/-- `QuestionType` from src/models/conversation.py. -/
inductive QuestionType where
  | BUG
  | HOW_TO
  | FEATURE_REQUEST
  | OPS_ACTION
  | OTHER
deriving DecidableEq, Repr

/-- `ActionStatus` from src/models/action.py. -/
inductive ActionStatus where
  | PENDING_APPROVAL
  | APPROVED
  | REJECTED
  | RUNNING
  | COMPLETED
  | FAILED
  | CANCELLED
deriving DecidableEq, Repr

/-- `FeedbackRating` from src/models/feedback.py. -/
inductive FeedbackRating where
  | HELPFUL
  | NOT_HELPFUL
  | NEUTRAL
deriving DecidableEq, Repr

/-! ## Table rows (src/models/) -/

/-- A row of the `conversations` table (class `Conversation`,
src/models/conversation.py).  Nullable columns are `Option`s. -/
structure ConversationRow where
  id : Nat
  channel_id : String
  thread_ts : String
  user_id : String
  question_type : Option QuestionType
  status : ConversationStatus
  summary : Option String
  summary_confirmed : Bool
  jira_key : Option String
  sla_deadline : Option Nat
  first_response_deadline : Option Nat
  first_response_at : Option Nat
  resolved_at : Option Nat
  rag_index : Option String
deriving DecidableEq, Repr

/-- A row of the `messages` table (class `Message`,
src/models/conversation.py).  `file_urls` is stored in Python as a JSON
array of the files' `url_private` entries (possibly null entries); it is
embedded as the list that JSON string encodes. -/
structure MessageRow where
  id : Nat
  conversation_id : Nat
  ts : String
  user_id : String
  text : String
  has_files : Bool
  file_urls : Option (List (Option String))
  ocr_text : Option String
  is_bot_response : Bool
deriving DecidableEq, Repr

/-- A row of the `action_runs` table (class `ActionRun`,
src/models/action.py); only the columns the verified operations touch are
kept as typed fields, the rest as `Option String` just like the schema. -/
structure ActionRunRow where
  id : Nat
  conversation_id : Nat
  action_name : String
  parameters : Option String
  status : ActionStatus
  approved_by : Option String
  approved_at : Option Nat
  output : Option String
  error : Option String
deriving DecidableEq, Repr

/-- A row of the `feedback` table (class `Feedback`, src/models/feedback.py). -/
structure FeedbackRow where
  id : Nat
  conversation_id : Nat
  user_id : String
  rating : FeedbackRating
  note : Option String
  message_ts : Option String
deriving DecidableEq, Repr

/-- A row of the `audit_events` table (class `AuditEvent`, src/models/audit.py). -/
structure AuditEventRow where
  id : Nat
  event_type : String
  actor_id : Option String
  channel_id : Option String
  thread_ts : Option String
  payload_hash : Option String
  result : Option String
  error : Option String
deriving DecidableEq, Repr

/-- The relational store: one list per table plus each table's
autoincrement counter.  Inserted rows are prepended. -/
structure DB where
  conversations : List ConversationRow
  messages : List MessageRow
  actions : List ActionRunRow
  feedbacks : List FeedbackRow
  audit_events : List AuditEventRow
  next_conversation_id : Nat
  next_message_id : Nat
  next_feedback_id : Nat
deriving DecidableEq, Repr

/-- The empty store. -/
def emptyDB : DB :=
  { conversations := [], messages := [], actions := [], feedbacks := []
    audit_events := [], next_conversation_id := 1, next_message_id := 1
    next_feedback_id := 1 }

/-- Database-level failure surfaced by a commit: the uniqueness constraints
on `conversations.thread_ts` and `messages.ts` (IntegrityError in Python). -/
inductive DbError where
  | uniqueViolation
deriving DecidableEq, Repr

/-- Service-level error condition; the Python services never actually
raise it (they return `None` in every branch), which is what the claims
about NotFound reporting are checked against. -/
inductive SvcError where
  | notFound
deriving DecidableEq, Repr

/-! ## Channel configuration (src/config/channel_config.py) -/

/-- `RetrievalParams` from src/config/channel_config.py (filters kept as an
association list of string pairs; the similarity threshold, a config float,
is kept as a rational). -/
structure RetrievalParams where
  top_k : Nat
  filters : List (String × String)
  similarity_threshold : ℚ
  namespace_ : Option String
deriving DecidableEq, Repr

/-- `ChannelPolicies` from src/config/channel_config.py. -/
structure ChannelPolicies where
  pii_redaction : Bool
  action_whitelist : List String
  require_approval : Bool
  max_actions_per_day : Nat
deriving DecidableEq, Repr

/-- `ChannelConfig` from src/config/channel_config.py. -/
structure ChannelConfig where
  channel_id : String
  name : String
  rag_index : String
  retrieval_params : RetrievalParams
  approvers : List String
  sla_minutes : Nat
  first_response_minutes : Nat
  policies : ChannelPolicies
  enabled : Bool
deriving DecidableEq, Repr

/-- `ChannelConfigManager._channels` is a dict keyed by channel id; the
manager is embedded as the list of loaded configs, looked up by
`channel_id`. -/
def get_channel_config (channels : List ChannelConfig) (channel_id : String) :
    Option ChannelConfig :=
  channels.find? (fun c => c.channel_id == channel_id)

/-- `ChannelConfigManager.is_channel_enabled`:
`config is not None and config.enabled`. -/
def is_channel_enabled (channels : List ChannelConfig) (channel_id : String) : Bool :=
  match get_channel_config channels channel_id with
  | none => false
  | some config => config.enabled

/-! ## ConversationService (src/slack/services/conversation_service.py)

Each method opens a session, runs selects and at most one commit, and
returns.  The select phase and the insert/commit phase are embedded as
separate functions so that the interleaving the Python code is exposed to —
another worker committing between the select and the commit — can be
expressed: `get_or_create_conversation` composes the two phases over one
store snapshot (the run in which no concurrent commit intervened), while
`get_or_create_conversation_interleaved` lets the commit see a later
snapshot. -/

/-- The select in `get_or_create_conversation`:
`select(Conversation).where(Conversation.thread_ts == thread_ts)`,
`scalar_one_or_none()`. -/
def conversations_find_by_thread (db : DB) (thread_ts : String) :
    Option ConversationRow :=
  db.conversations.find? (fun c => c.thread_ts == thread_ts)

/-- The `Conversation(...)` construction in `get_or_create_conversation`:
status ACTIVE, `sla_deadline = now + timedelta(minutes=sla_minutes)`,
`first_response_deadline = now + timedelta(minutes=first_response_minutes)`;
every other nullable column left null, `summary_confirmed` at its column
default. -/
def new_conversation_row (db : DB) (channel_id thread_ts user_id : String)
    (sla_minutes first_response_minutes now : Nat) : ConversationRow :=
  { id := db.next_conversation_id
    channel_id := channel_id
    thread_ts := thread_ts
    user_id := user_id
    question_type := none
    status := ConversationStatus.ACTIVE
    summary := none
    summary_confirmed := false
    jira_key := none
    sla_deadline := some (now + 60 * sla_minutes)
    first_response_deadline := some (now + 60 * first_response_minutes)
    first_response_at := none
    resolved_at := none
    rag_index := none }

/-- The `session.add(conversation); await session.commit()` step: the commit
enforces the unique constraint on `thread_ts` (an IntegrityError in Python)
and the code has no handler for it, so the violation is surfaced as an
error. -/
def insert_conversation (db : DB) (row : ConversationRow) : Except DbError DB :=
  if db.conversations.any (fun c => c.thread_ts == row.thread_ts) then
    Except.error DbError.uniqueViolation
  else
    Except.ok { db with
      conversations := row :: db.conversations
      next_conversation_id := db.next_conversation_id + 1 }

/-- `ConversationService.get_or_create_conversation` run without any
concurrent commit between its select and its insert.  The Python defaults
are `sla_minutes=120`, `first_response_minutes=15`. -/
def get_or_create_conversation (db : DB) (channel_id thread_ts user_id : String)
    (sla_minutes first_response_minutes now : Nat) :
    Except DbError (DB × ConversationRow) :=
  match conversations_find_by_thread db thread_ts with
  | some conversation => Except.ok (db, conversation)
  | none =>
    let row := new_conversation_row db channel_id thread_ts user_id
      sla_minutes first_response_minutes now
    match insert_conversation db row with
    | Except.ok db2 => Except.ok (db2, row)
    | Except.error e => Except.error e

/-- `ConversationService.get_or_create_conversation` with the select
evaluated against `db_at_select` and the commit against `db_at_insert`: the
snapshots differ exactly when another worker committed in between (the
redelivery race the spec's §4.1/§5 concurrency model allows).  With equal
snapshots this is `get_or_create_conversation`.  The method body has no
`except` around the commit, so the error branch propagates to the caller. -/
def get_or_create_conversation_interleaved (db_at_select db_at_insert : DB)
    (channel_id thread_ts user_id : String)
    (sla_minutes first_response_minutes now : Nat) :
    Except DbError (DB × ConversationRow) :=
  match conversations_find_by_thread db_at_select thread_ts with
  | some conversation => Except.ok (db_at_insert, conversation)
  | none =>
    let row := new_conversation_row db_at_insert channel_id thread_ts user_id
      sla_minutes first_response_minutes now
    match insert_conversation db_at_insert row with
    | Except.ok db2 => Except.ok (db2, row)
    | Except.error e => Except.error e

/-- A Slack file object as `save_message` reads it: only `url_private` is
accessed, via `.get`, so it may be absent. -/
structure FileInfo where
  url_private : Option String
deriving DecidableEq, Repr

/-- The select in `save_message`: `select(Message).where(Message.ts == ts)`. -/
def messages_find_by_ts (db : DB) (ts : String) : Option MessageRow :=
  db.messages.find? (fun m => m.ts == ts)

/-- `session.add(message); await session.commit()` in `save_message`; the
commit enforces the unique constraint on `messages.ts`. -/
def insert_message (db : DB) (row : MessageRow) : Except DbError DB :=
  if db.messages.any (fun m => m.ts == row.ts) then
    Except.error DbError.uniqueViolation
  else
    Except.ok { db with
      messages := row :: db.messages
      next_message_id := db.next_message_id + 1 }

/-- The `Message(...)` construction in `save_message`:
`has_files = bool(files)` and
`file_urls = json.dumps([f.get("url_private") for f in files]) if files else None`. -/
def savedMessageRow (db : DB) (conversation_id : Nat) (ts user_id text : String)
    (files : List FileInfo) (is_bot_response : Bool) (ocr_text : Option String) :
    MessageRow :=
  { id := db.next_message_id
    conversation_id := conversation_id
    ts := ts
    user_id := user_id
    text := text
    has_files := !files.isEmpty
    file_urls := if files.isEmpty then none
      else some (files.map (fun f => f.url_private))
    ocr_text := ocr_text
    is_bot_response := is_bot_response }

/-- `ConversationService.save_message`: return the existing row for `ts` if
there is one, otherwise insert the newly constructed row. -/
def save_message (db : DB) (conversation_id : Nat) (ts user_id text : String)
    (files : List FileInfo) (is_bot_response : Bool) (ocr_text : Option String) :
    Except DbError (DB × MessageRow) :=
  match messages_find_by_ts db ts with
  | some existing_message => Except.ok (db, existing_message)
  | none =>
    let message := savedMessageRow db conversation_id ts user_id text files
      is_bot_response ocr_text
    match insert_message db message with
    | Except.ok db2 => Except.ok (db2, message)
    | Except.error e => Except.error e

/-- The select shared by the three update methods:
`select(Conversation).where(Conversation.id == conversation_id)`. -/
def conversations_find_by_id (db : DB) (conversation_id : Nat) :
    Option ConversationRow :=
  db.conversations.find? (fun c => c.id == conversation_id)

/-- Mutate-and-commit on the row with the given id, leaving every other row
untouched (the session holds the one fetched ORM object and commits it). -/
def update_conversation_row (db : DB) (conversation_id : Nat)
    (f : ConversationRow → ConversationRow) : DB :=
  { db with conversations :=
      db.conversations.map (fun c => if c.id == conversation_id then f c else c) }

/-- `ConversationService.update_conversation_type`: `if conversation:` set
`question_type` and commit; otherwise fall through and return `None` —
no error value is produced in either branch. -/
def update_conversation_type (db : DB) (conversation_id : Nat)
    (question_type : QuestionType) : Except SvcError DB :=
  match conversations_find_by_id db conversation_id with
  | some _ => Except.ok (update_conversation_row db conversation_id
      (fun c => { c with question_type := some question_type }))
  | none => Except.ok db

/-- `ConversationService.update_conversation_summary`: `if conversation:`
set `summary` and `summary_confirmed` and commit; otherwise fall through
and return `None`. -/
def update_conversation_summary (db : DB) (conversation_id : Nat)
    (summary : String) (confirmed : Bool) : Except SvcError DB :=
  match conversations_find_by_id db conversation_id with
  | some _ => Except.ok (update_conversation_row db conversation_id
      (fun c => { c with summary := some summary, summary_confirmed := confirmed }))
  | none => Except.ok db

/-- `ConversationService.mark_first_response`:
`if conversation and not conversation.first_response_at:` set
`first_response_at = datetime.utcnow()` and commit; in every other case fall
through and return `None`. -/
def mark_first_response (db : DB) (conversation_id : Nat) (now : Nat) :
    Except SvcError DB :=
  match conversations_find_by_id db conversation_id with
  | some conversation =>
    if conversation.first_response_at = none then
      Except.ok (update_conversation_row db conversation_id
        (fun c => { c with first_response_at := some now }))
    else
      Except.ok db
  | none => Except.ok db

/-- `ConversationService.find_conversation_by_message`:
`select(Conversation).join(Message).where(Message.ts == message_ts)`. -/
def find_conversation_by_message (db : DB) (message_ts : String) :
    Option ConversationRow :=
  match messages_find_by_ts db message_ts with
  | some m => conversations_find_by_id db m.conversation_id
  | none => none

/-- `ConversationService.save_feedback`: unconditional insert (the feedback
table is append-only, no uniqueness check applies). -/
def save_feedback (db : DB) (conversation_id : Nat) (user_id : String)
    (rating : FeedbackRating) (message_ts : Option String)
    (note : Option String) : DB × FeedbackRow :=
  let feedback : FeedbackRow :=
    { id := db.next_feedback_id
      conversation_id := conversation_id
      user_id := user_id
      rating := rating
      note := note
      message_ts := message_ts }
  ({ db with
      feedbacks := feedback :: db.feedbacks
      next_feedback_id := db.next_feedback_id + 1 }, feedback)

/-! ## Reaction handler (src/slack/handlers/reaction.py) -/

/-- The `FEEDBACK_EMOJI_MAP` dict from `register_reaction_handlers`. -/
def FEEDBACK_EMOJI_MAP : List (String × FeedbackRating) :=
  [("+1", FeedbackRating.HELPFUL),
   ("thumbsup", FeedbackRating.HELPFUL),
   ("white_check_mark", FeedbackRating.HELPFUL),
   ("heavy_check_mark", FeedbackRating.HELPFUL),
   ("-1", FeedbackRating.NOT_HELPFUL),
   ("thumbsdown", FeedbackRating.NOT_HELPFUL),
   ("x", FeedbackRating.NOT_HELPFUL)]

/-- The fields of a `reaction_added` event the handler reads:
`event["reaction"]`, `event["user"]`, `event["item"]["channel"]`,
`event["item"]["ts"]`. -/
structure ReactionEvent where
  reaction : String
  user : String
  channel : String
  ts : String
deriving DecidableEq, Repr

/-- `handle_reaction_added` from src/slack/handlers/reaction.py, as its
effect on the store: return unchanged when the channel is not enabled, when
the reaction is not a key of `FEEDBACK_EMOJI_MAP`, or when no conversation
owns the reacted message; otherwise save one feedback row with the mapped
rating.  Logging and the Prometheus counter are outside the store; the
`try/except` around the body only swallows errors, which the embedded
operations do not produce. -/
def handle_reaction_added (channels : List ChannelConfig) (db : DB)
    (event : ReactionEvent) : DB :=
  if !(is_channel_enabled channels event.channel) then db
  else
    match FEEDBACK_EMOJI_MAP.lookup event.reaction with
    | none => db
    | some rating =>
      match find_conversation_by_message db event.ts with
      | none => db
      | some conversation =>
        (save_feedback db conversation.id event.user rating (some event.ts) none).1

/-! ## Message handler (src/slack/handlers/message.py) -/

/-- The fields of a `message` event the handler reads. -/
structure MessageEvent where
  subtype : Option String
  channel : String
  user : String
  text : String
  ts : String
  thread_ts : Option String
  files : List FileInfo
deriving DecidableEq, Repr

/-- `handle_message` from src/slack/handlers/message.py, as its effect on
the store.  Bot/edited/deleted subtypes and disabled channels return before
any database access.  The call to `get_or_create_conversation` passes no
SLA arguments, so the Python defaults 120 and 15 apply.  `process` stands
for the external collaborator `MessageProcessor.process_message` (out of
scope per the spec, §1); the Slack acknowledgement reaction does not touch
the store.  The outer `try/except` catches a database error and leaves the
store as it was at the failure point. -/
def handle_message (channels : List ChannelConfig) (process : DB → DB)
    (db : DB) (event : MessageEvent) (now : Nat) : DB :=
  if event.subtype = some "bot_message" ∨ event.subtype = some "message_changed"
      ∨ event.subtype = some "message_deleted" then db
  else
    let thread_ts := event.thread_ts.getD event.ts
    if !(is_channel_enabled channels event.channel) then db
    else
      match get_or_create_conversation db event.channel thread_ts event.user
          120 15 now with
      | Except.error _ => db
      | Except.ok (db1, conversation) =>
        match save_message db1 conversation.id event.ts event.user event.text
            event.files false none with
        | Except.error _ => db1
        | Except.ok (db2, _) => process db2

/-! ## ActionService (src/slack/services/action_service.py) -/

/-- A `chat_postMessage` call issued to the Slack client. -/
structure ChatMessage where
  channel : String
  thread_ts : String
  text : String
deriving DecidableEq, Repr

/-- `ActionService.handle_action_approval` from
src/slack/services/action_service.py, as its effect on the store plus the
messages it posts.  The body logs, then posts
"Action approved by <@user_id>! Starting execution..." — the approver
check, status update, execution and audit append named in its TODO comment
are not implemented, so the store (including `action_runs` and
`audit_events`) is untouched for every caller. -/
def handle_action_approval (db : DB) (action_id : Nat)
    (user_id channel_id thread_ts : String) : DB × List ChatMessage :=
  (db, [{ channel := channel_id
          thread_ts := thread_ts
          text := "Action approved by <@" ++ user_id ++ ">! Starting execution..." }])

/-! ## Stats read path (src/web/app.py, get_stats) -/

/-- The helpful-rate computation inside `get_stats`:
`helpful_count / feedback_count * 100 if feedback_count > 0 else 0`, where
`feedback_count` counts all feedback rows and `helpful_count` those with
rating HELPFUL.  Python evaluates it in exact terms here embedded over ℚ. -/
def get_stats_helpful_rate (feedbacks : List FeedbackRow) : ℚ :=
  let feedback_count := feedbacks.length
  let helpful_count :=
    (feedbacks.filter (fun f => f.rating == FeedbackRating.HELPFUL)).length
  if feedback_count > 0 then
    (helpful_count : ℚ) / (feedback_count : ℚ) * 100
  else 0

/-! ## SLA deadline tracker -/

/-- Modelled from the spec: no SLA-breach predicate exists under src/ (the
repository only declares the `sla_deadline`/`resolved_at` columns), so the
tracker of spec §4.4 is taken at its words:
`isSlaBreached(c, now) = c.resolved_at is null AND now > c.sla_deadline`.
Conversations created by `get_or_create_conversation` always carry a
deadline; for a null deadline (not discussed by the spec) the comparison
cannot hold and the predicate is false. -/
def isSlaBreached (c : ConversationRow) (now : Nat) : Bool :=
  c.resolved_at.isNone &&
    (match c.sla_deadline with
     | some d => decide (now > d)
     | none => false)

/-- Modelled from the spec: companion predicate of spec §4.4,
`isFirstResponseBreached(c, now) = c.first_response_at is null AND
now > c.first_response_deadline`; same treatment of a null deadline as
`isSlaBreached`. -/
def isFirstResponseBreached (c : ConversationRow) (now : Nat) : Bool :=
  c.first_response_at.isNone &&
    (match c.first_response_deadline with
     | some d => decide (now > d)
     | none => false)

/-! ## Projections used by the frame statements -/

/-- The deadline columns of every conversation row, with its id: the view
the deadline-immutability claim is stated over. -/
def deadline_view (db : DB) : List (Nat × Option Nat × Option Nat) :=
  db.conversations.map (fun c => (c.id, c.sla_deadline, c.first_response_deadline))

/-! ## Concrete fixtures used by the closed theorems -/

/-- A pending action run owned by conversation 1. -/
def actionRun1 : ActionRunRow :=
  { id := 1, conversation_id := 1, action_name := "restart_service"
    parameters := none, status := ActionStatus.PENDING_APPROVAL
    approved_by := none, approved_at := none, output := none, error := none }

/-- A channel config for channel "C1" whose only approver is "U_OK". -/
def channelC1 : ChannelConfig :=
  { channel_id := "C1", name := "support", rag_index := "kb-support"
    retrieval_params := { top_k := 5, filters := [], similarity_threshold := 7/10
                          namespace_ := none }
    approvers := ["U_OK"], sla_minutes := 120, first_response_minutes := 15
    policies := { pii_redaction := true, action_whitelist := []
                  require_approval := true, max_actions_per_day := 100 }
    enabled := true }

/-- A store holding exactly the pending `actionRun1`. -/
def dbWithPendingAction : DB := { emptyDB with actions := [actionRun1] }

/-- The store after the first worker's `get_or_create_conversation` for
thread "T1" on the empty store. -/
def dbAfterT1 : DB :=
  { emptyDB with
    conversations := [new_conversation_row emptyDB "C1" "T1" "U1" 120 15 0]
    next_conversation_id := 2 }

/-- The one message row of the C3 witness store, as the first
`save_message` call creates it. -/
def msgX : MessageRow :=
  { id := 1, conversation_id := 1, ts := "100.1", user_id := "U1", text := "hi"
    has_files := false, file_urls := none, ocr_text := none
    is_bot_response := false }

/-- The store after the first `save_message` call of the C3 witness. -/
def dbX : DB := { emptyDB with messages := [msgX], next_message_id := 2 }

/-- A conversation with its first response already recorded. -/
def convR : ConversationRow :=
  { id := 1, channel_id := "C1", thread_ts := "T1", user_id := "U1"
    question_type := none, status := ConversationStatus.ACTIVE, summary := none
    summary_confirmed := false, jira_key := none, sla_deadline := some 7200
    first_response_deadline := some 900, first_response_at := some 300
    resolved_at := none, rag_index := none }

/-- A store holding exactly `convR`. -/
def dbR : DB := { emptyDB with conversations := [convR], next_conversation_id := 2 }

/-- The feedback-row sample of the stats claim: three HELPFUL ratings and
one NOT_HELPFUL. -/
def feedbackSample : List FeedbackRow :=
  [{ id := 1, conversation_id := 1, user_id := "U1"
     rating := FeedbackRating.HELPFUL, note := none, message_ts := none },
   { id := 2, conversation_id := 1, user_id := "U2"
     rating := FeedbackRating.HELPFUL, note := none, message_ts := none },
   { id := 3, conversation_id := 1, user_id := "U3"
     rating := FeedbackRating.HELPFUL, note := none, message_ts := none },
   { id := 4, conversation_id := 1, user_id := "U4"
     rating := FeedbackRating.NOT_HELPFUL, note := none, message_ts := none }]

/-- A message event for an unconfigured channel "CX". -/
def messageEventCX : MessageEvent :=
  { subtype := none, channel := "CX", user := "U1", text := "hello", ts := "1.0"
    thread_ts := none, files := [] }

/-- A reaction event (a mapped emoji) in the unconfigured channel "CX". -/
def reactionEventCX : ReactionEvent :=
  { reaction := "+1", user := "U1", channel := "CX", ts := "1.0" }

end SlackHelperBot

namespace SlackHelperBot

/-! ## Helper lemmas -/

/-- A negative `find?` forces a negative `any`. -/
theorem any_eq_false_of_find?_eq_none {α : Type} {p : α → Bool} {l : List α}
    (h : l.find? p = none) : l.any p = false := by
  rw [Bool.eq_false_iff]
  intro hc
  obtain ⟨x, hx, hpx⟩ := List.any_eq_true.mp hc
  exact List.find?_eq_none.mp h x hx hpx

/-- `save_message` on a timestamp that is already stored returns the
existing row and leaves the store unchanged. -/
theorem save_message_found (db : DB) (cid : Nat) (ts u t : String)
    (fs : List FileInfo) (b : Bool) (o : Option String) (m : MessageRow)
    (h : messages_find_by_ts db ts = some m) :
    save_message db cid ts u t fs b o = Except.ok (db, m) := by
  unfold save_message
  rw [h]

/-- `save_message` on a fresh timestamp inserts the constructed row. -/
theorem save_message_not_found (db : DB) (cid : Nat) (ts u t : String)
    (fs : List FileInfo) (b : Bool) (o : Option String)
    (h : messages_find_by_ts db ts = none) :
    save_message db cid ts u t fs b o =
      Except.ok
        ({ db with
            messages := savedMessageRow db cid ts u t fs b o :: db.messages
            next_message_id := db.next_message_id + 1 },
          savedMessageRow db cid ts u t fs b o) := by
  have hany : (db.messages.any fun m => m.ts == ts) = false :=
    any_eq_false_of_find?_eq_none h
  unfold save_message insert_message
  rw [h]
  simp only [savedMessageRow, hany]
  rfl

/-- `get_or_create_conversation` on an existing thread returns the stored
row and leaves the store unchanged. -/
theorem get_or_create_found (db : DB) (ch th u : String) (sla fr now : Nat)
    (c : ConversationRow) (h : conversations_find_by_thread db th = some c) :
    get_or_create_conversation db ch th u sla fr now = Except.ok (db, c) := by
  unfold get_or_create_conversation
  rw [h]

/-- `get_or_create_conversation` on a fresh thread inserts the new row. -/
theorem get_or_create_not_found (db : DB) (ch th u : String) (sla fr now : Nat)
    (h : conversations_find_by_thread db th = none) :
    get_or_create_conversation db ch th u sla fr now =
      Except.ok
        ({ db with
            conversations :=
              new_conversation_row db ch th u sla fr now :: db.conversations
            next_conversation_id := db.next_conversation_id + 1 },
          new_conversation_row db ch th u sla fr now) := by
  have hany : (db.conversations.any fun c => c.thread_ts == th) = false :=
    any_eq_false_of_find?_eq_none h
  unfold get_or_create_conversation insert_conversation
  rw [h]
  simp only [new_conversation_row, hany]
  rfl

/-- Updating one conversation row through a field transformer that keeps
the id and both deadline columns leaves the deadline view unchanged. -/
theorem deadline_view_update_row (db : DB) (cid : Nat)
    (f : ConversationRow → ConversationRow)
    (hf : ∀ c, (f c).id = c.id ∧ (f c).sla_deadline = c.sla_deadline ∧
      (f c).first_response_deadline = c.first_response_deadline) :
    deadline_view (update_conversation_row db cid f) = deadline_view db := by
  unfold deadline_view update_conversation_row
  rw [List.map_map]
  apply List.map_congr_left
  intro c _
  rcases hf c with ⟨h1, h2, h3⟩
  by_cases hc : c.id = cid
  · simp [hc, h1, h2, h3]
  · simp [hc]

/-! ## Claim theorems -/

/-- Claim C1 (code evaluated at the failing input): the approve-action
operation, called by an identity that is not in the owning channel's
approver set, performs no approver check at all — it leaves the whole
store untouched (so the ActionRun does stay PENDING_APPROVAL), appends no
AuditEvent whatsoever (the claim requires exactly one with result
"unauthorized"), and posts the "Action approved" announcement for the
unauthorized identity. -/
theorem C1_unauthorized_approval_unenforced :
    ("U_EVIL" ∉ channelC1.approvers) ∧
    (handle_action_approval dbWithPendingAction 1 "U_EVIL" "C1" "T1").1
      = dbWithPendingAction ∧
    (handle_action_approval dbWithPendingAction 1 "U_EVIL" "C1" "T1").1.audit_events
      = [] ∧
    ((handle_action_approval dbWithPendingAction 1 "U_EVIL" "C1" "T1").1.actions.find?
        (fun a => a.id == 1)).map (fun a => a.status)
      = some ActionStatus.PENDING_APPROVAL ∧
    (handle_action_approval dbWithPendingAction 1 "U_EVIL" "C1" "T1").2
      = [{ channel := "C1", thread_ts := "T1"
           text := "Action approved by <@U_EVIL>! Starting execution..." }] := by
  refine ⟨?_, rfl, rfl, rfl, rfl⟩
  decide

/-- Claim C2 (code evaluated at the failing input): a first worker creates
the conversation for thread "T1"; a second worker whose existence check ran
against the store before that commit then reaches its own insert, whose
commit hits the `thread_ts` uniqueness violation — and because the method
wraps the insert in no handler, the violation propagates to the caller as
an error instead of being resolved by a re-fetch of the existing row. -/
theorem C2_uniqueness_violation_propagates :
    get_or_create_conversation emptyDB "C1" "T1" "U1" 120 15 0
      = Except.ok (dbAfterT1, new_conversation_row emptyDB "C1" "T1" "U1" 120 15 0) ∧
    get_or_create_conversation_interleaved emptyDB dbAfterT1 "C1" "T1" "U2" 120 15 5
      = Except.error DbError.uniqueViolation := by
  exact ⟨rfl, rfl⟩

/-- Claim C3: `save_message` is idempotent on the external timestamp — if a
call with timestamp `ts` produced the store `db1` and row `m1`, a second
call with the same `ts` and arbitrary other arguments returns exactly
`(db1, m1)`: the existing row unchanged, and no new row. -/
theorem C3_save_message_idempotent
    (db db1 : DB) (m1 : MessageRow) (cid1 cid2 : Nat)
    (ts u1 u2 t1 t2 : String) (fs1 fs2 : List FileInfo) (b1 b2 : Bool)
    (o1 o2 : Option String)
    (h : save_message db cid1 ts u1 t1 fs1 b1 o1 = Except.ok (db1, m1)) :
    save_message db1 cid2 ts u2 t2 fs2 b2 o2 = Except.ok (db1, m1) := by
  cases hf : messages_find_by_ts db ts with
  | some m =>
    rw [save_message_found db cid1 ts u1 t1 fs1 b1 o1 m hf] at h
    injection h with h1
    injection h1 with hdb hm
    subst hdb
    subst hm
    exact save_message_found db cid2 ts u2 t2 fs2 b2 o2 m hf
  | none =>
    rw [save_message_not_found db cid1 ts u1 t1 fs1 b1 o1 hf] at h
    injection h with h1
    injection h1 with hdb hm
    have hfind1 : messages_find_by_ts db1 ts = some m1 := by
      rw [← hdb, ← hm]
      unfold messages_find_by_ts
      simp [List.find?_cons, savedMessageRow]
    exact save_message_found db1 cid2 ts u2 t2 fs2 b2 o2 m1 hfind1

/-- Witness for C3 at a concrete input: a redelivered save with different
author, text and flags returns the stored row unchanged. -/
theorem C3_witness :
    save_message dbX 2 "100.1" "U2" "bye" [] true (some "ocr")
      = Except.ok (dbX, msgX) :=
  C3_save_message_idempotent emptyDB dbX msgX 1 2 "100.1" "U1" "U2" "hi" "bye"
    [] [] false true none (some "ocr") rfl

/-- Claim C4: `mark_first_response` sets `first_response_at` only while it
is null — when the conversation already carries `some t`, a later call
returns the store completely unchanged (original value and every other
field kept), so the operation is idempotent and the column set-once. -/
theorem C4_mark_first_response_set_once
    (db : DB) (cid now t : Nat) (c : ConversationRow)
    (hfind : conversations_find_by_id db cid = some c)
    (hset : c.first_response_at = some t) :
    mark_first_response db cid now = Except.ok db := by
  unfold mark_first_response
  rw [hfind]
  simp [hset]

/-- Witness for C4 at a concrete input: a duplicate call long after the
first response leaves the store untouched. -/
theorem C4_witness : mark_first_response dbR 1 99999 = Except.ok dbR :=
  C4_mark_first_response_set_once dbR 1 99999 300 convR rfl rfl

/-- Claim C5: the SLA predicates are pure functions of the conversation row
and the clock; `isSlaBreached c now` is true exactly when `resolved_at` is
null and `now` exceeds the SLA deadline — in particular it is false
whenever `resolved_at` is set — and `isFirstResponseBreached c now` holds
exactly when `first_response_at` is null and `now` exceeds the
first-response deadline. -/
theorem C5_sla_predicates
    (c : ConversationRow) (now d fd : Nat)
    (hs : c.sla_deadline = some d) (hf : c.first_response_deadline = some fd) :
    (isSlaBreached c now = true ↔ (c.resolved_at = none ∧ d < now)) ∧
    (∀ r, c.resolved_at = some r → isSlaBreached c now = false) ∧
    (isFirstResponseBreached c now = true ↔
      (c.first_response_at = none ∧ fd < now)) := by
  unfold isSlaBreached isFirstResponseBreached
  rw [hs, hf]
  refine ⟨?_, ?_, ?_⟩
  · simp [Option.isNone_iff_eq_none]
  · intro r hr
    simp [hr]
  · simp [Option.isNone_iff_eq_none]

/-- Witness for C5 at a concrete input: an unresolved conversation past its
deadline is breached, and the same row with `resolved_at` set is not. -/
theorem C5_witness :
    isSlaBreached convR 8000 = true ∧
    isSlaBreached { convR with resolved_at := some 7300 } 8000 = false := by
  refine ⟨?_, ?_⟩
  · exact (C5_sla_predicates convR 8000 7200 900 rfl rfl).1.mpr ⟨rfl, by decide⟩
  · exact (C5_sla_predicates { convR with resolved_at := some 7300 } 8000 7200 900
      rfl rfl).2.1 7300 rfl

/-- Claim C6: the helpful rate computed by the stats read path is
`count(rating=HELPFUL) / count(all feedback rows)` as a percentage; on
three HELPFUL and one NOT_HELPFUL rows it is 75, and on zero rows it is 0
with no division-by-zero failure. -/
theorem C6_helpful_rate (fbs : List FeedbackRow) :
    get_stats_helpful_rate feedbackSample = 75 ∧
    get_stats_helpful_rate [] = 0 ∧
    (fbs ≠ [] →
      get_stats_helpful_rate fbs =
        (((fbs.filter (fun f => f.rating == FeedbackRating.HELPFUL)).length : ℚ)
          / (fbs.length : ℚ)) * 100) := by
  refine ⟨?_, ?_, ?_⟩
  · have hfl : (feedbackSample.filter
        (fun f => f.rating == FeedbackRating.HELPFUL)).length = 3 := rfl
    have hlen : feedbackSample.length = 4 := rfl
    simp only [get_stats_helpful_rate, hfl, hlen]
    norm_num
  · simp [get_stats_helpful_rate]
  · intro h
    have hlen : 0 < fbs.length := List.length_pos.mpr h
    simp [get_stats_helpful_rate, hlen]

/-- Witness for C6 at a concrete input: the general rate formula applied
to the 3-HELPFUL/1-NOT_HELPFUL sample. -/
theorem C6_witness :
    feedbackSample ≠ [] ∧
    get_stats_helpful_rate feedbackSample =
      (((feedbackSample.filter
          (fun f => f.rating == FeedbackRating.HELPFUL)).length : ℚ)
        / (feedbackSample.length : ℚ)) * 100 :=
  ⟨by decide, (C6_helpful_rate feedbackSample).2.2 (by decide)⟩

/-- Claim C7: a reaction whose symbol is not a key of the emoji-to-rating
table leaves the store untouched (no Feedback row, no other mutation); a
symbol that is a key either leads to no write (disabled channel or
unresolved conversation) or to exactly the `save_feedback` insert carrying
the rating the table assigns. -/
theorem C7_unmapped_reaction_ignored (channels : List ChannelConfig) (db : DB)
    (event : ReactionEvent) :
    (FEEDBACK_EMOJI_MAP.lookup event.reaction = none →
      handle_reaction_added channels db event = db) ∧
    (∀ rt, FEEDBACK_EMOJI_MAP.lookup event.reaction = some rt →
      handle_reaction_added channels db event = db ∨
      ∃ conv, find_conversation_by_message db event.ts = some conv ∧
        handle_reaction_added channels db event =
          (save_feedback db conv.id event.user rt (some event.ts) none).1) := by
  constructor
  · intro hlk
    unfold handle_reaction_added
    cases hen : is_channel_enabled channels event.channel with
    | false => simp
    | true => simp [hlk]
  · intro rt hlk
    cases hen : is_channel_enabled channels event.channel with
    | false =>
      left
      unfold handle_reaction_added
      simp [hen]
    | true =>
      cases hconv : find_conversation_by_message db event.ts with
      | none =>
        left
        unfold handle_reaction_added
        simp [hen, hlk, hconv]
      | some conv =>
        right
        refine ⟨conv, rfl, ?_⟩
        unfold handle_reaction_added
        rw [hen, hlk, hconv]
        simp

/-- Witness for C7 at a concrete input: the unmapped emoji "tada" writes
nothing. -/
theorem C7_witness :
    handle_reaction_added [] emptyDB
      { reaction := "tada", user := "U1", channel := "C9", ts := "1.1" }
      = emptyDB :=
  (C7_unmapped_reaction_ignored [] emptyDB
    { reaction := "tada", user := "U1", channel := "C9", ts := "1.1" }).1 rfl

/-- Claim C8: a conversation created for a fresh thread id starts ACTIVE
with `sla_deadline = now + 60*sla_minutes` and
`first_response_deadline = now + 60*first_response_minutes` (the handler
passes the defaults 120 and 15), and no later core operation — the three
updates, `save_message`, `save_feedback`, or a redelivered
`get_or_create_conversation` — changes any conversation's deadline
columns. -/
theorem C8_creation_deadlines_fixed
    (db db' : DB) (ch th u : String) (sla fr now : Nat) (row : ConversationRow)
    (hfresh : conversations_find_by_thread db th = none)
    (hrun : get_or_create_conversation db ch th u sla fr now
      = Except.ok (db', row)) :
    row.status = ConversationStatus.ACTIVE ∧
    row.sla_deadline = some (now + 60 * sla) ∧
    row.first_response_deadline = some (now + 60 * fr) ∧
    (∀ dba dbb cid qt, update_conversation_type dba cid qt = Except.ok dbb →
      deadline_view dbb = deadline_view dba) ∧
    (∀ dba dbb cid s cf,
      update_conversation_summary dba cid s cf = Except.ok dbb →
      deadline_view dbb = deadline_view dba) ∧
    (∀ dba dbb cid n, mark_first_response dba cid n = Except.ok dbb →
      deadline_view dbb = deadline_view dba) ∧
    (∀ dba dbb cid ts2 u2 t2 fs2 b2 o2 m,
      save_message dba cid ts2 u2 t2 fs2 b2 o2 = Except.ok (dbb, m) →
      deadline_view dbb = deadline_view dba) ∧
    (∀ dba cid u2 rt mts nt,
      deadline_view (save_feedback dba cid u2 rt mts nt).1 = deadline_view dba) ∧
    (∀ ch2 u2 sla2 fr2 now2,
      get_or_create_conversation db' ch2 th u2 sla2 fr2 now2
        = Except.ok (db', row)) := by
  rw [get_or_create_not_found db ch th u sla fr now hfresh] at hrun
  injection hrun with h1
  injection h1 with hdb hrow
  subst hdb
  subst hrow
  refine ⟨rfl, rfl, rfl, ?_, ?_, ?_, ?_, ?_, ?_⟩
  · intro dba dbb cid qt hup
    unfold update_conversation_type at hup
    cases hfind : conversations_find_by_id dba cid with
    | none =>
      rw [hfind] at hup
      injection hup with h2
      rw [← h2]
    | some c =>
      rw [hfind] at hup
      injection hup with h2
      rw [← h2]
      exact deadline_view_update_row dba cid _ (fun c => ⟨rfl, rfl, rfl⟩)
  · intro dba dbb cid s cf hup
    unfold update_conversation_summary at hup
    cases hfind : conversations_find_by_id dba cid with
    | none =>
      rw [hfind] at hup
      injection hup with h2
      rw [← h2]
    | some c =>
      rw [hfind] at hup
      injection hup with h2
      rw [← h2]
      exact deadline_view_update_row dba cid _ (fun c => ⟨rfl, rfl, rfl⟩)
  · intro dba dbb cid n hup
    unfold mark_first_response at hup
    split at hup
    · split at hup
      · injection hup with h2
        rw [← h2]
        exact deadline_view_update_row dba cid _ (fun c => ⟨rfl, rfl, rfl⟩)
      · injection hup with h2
        rw [← h2]
    · injection hup with h2
      rw [← h2]
  · intro dba dbb cid ts2 u2 t2 fs2 b2 o2 m hup
    cases hfind : messages_find_by_ts dba ts2 with
    | some m2 =>
      rw [save_message_found dba cid ts2 u2 t2 fs2 b2 o2 m2 hfind] at hup
      injection hup with h2
      injection h2 with h3 _
      rw [← h3]
    | none =>
      rw [save_message_not_found dba cid ts2 u2 t2 fs2 b2 o2 hfind] at hup
      injection hup with h2
      injection h2 with h3 _
      rw [← h3]
      rfl
  · intro dba cid u2 rt mts nt
    rfl
  · intro ch2 u2 sla2 fr2 now2
    apply get_or_create_found
    unfold conversations_find_by_thread
    simp [List.find?_cons, new_conversation_row]

/-- Witness for C8 at a concrete input: the conversation created for the
fresh thread "T1" at time 1000 starts ACTIVE with deadlines
1000+7200 and 1000+900. -/
theorem C8_witness :
    (new_conversation_row emptyDB "C1" "T1" "U1" 120 15 1000).status
      = ConversationStatus.ACTIVE ∧
    (new_conversation_row emptyDB "C1" "T1" "U1" 120 15 1000).sla_deadline
      = some (1000 + 60 * 120) ∧
    (new_conversation_row emptyDB "C1" "T1" "U1" 120 15 1000).first_response_deadline
      = some (1000 + 60 * 15) := by
  have h := C8_creation_deadlines_fixed emptyDB
    { emptyDB with
      conversations := [new_conversation_row emptyDB "C1" "T1" "U1" 120 15 1000]
      next_conversation_id := 2 }
    "C1" "T1" "U1" 120 15 1000
    (new_conversation_row emptyDB "C1" "T1" "U1" 120 15 1000) rfl rfl
  exact ⟨h.1, h.2.1, h.2.2.1⟩

/-- Claim C9 refuted at a concrete input: all three update operations,
called with a conversation id that matches no row, return the plain
success value with the store unchanged — indistinguishable from a
successful call — instead of reporting a NotFound condition. -/
theorem C9_counterexample :
    update_conversation_type emptyDB 1 QuestionType.BUG = Except.ok emptyDB ∧
    update_conversation_summary emptyDB 1 "sum" false = Except.ok emptyDB ∧
    mark_first_response emptyDB 1 0 = Except.ok emptyDB ∧
    update_conversation_type emptyDB 1 QuestionType.BUG
      ≠ Except.error SvcError.notFound ∧
    update_conversation_summary emptyDB 1 "sum" false
      ≠ Except.error SvcError.notFound ∧
    mark_first_response emptyDB 1 0 ≠ Except.error SvcError.notFound := by
  refine ⟨rfl, rfl, rfl, ?_, ?_, ?_⟩ <;> exact fun hco => Except.noConfusion hco

/-- Claim C9 as amended: an update operation referencing an absent
conversation id performs no mutation and returns normally; the NotFound
condition is silently ignored, not reported to the caller. -/
theorem C9_notfound_silent_noop (db : DB) (cid : Nat) (qt : QuestionType)
    (s : String) (cf : Bool) (now : Nat)
    (h : conversations_find_by_id db cid = none) :
    update_conversation_type db cid qt = Except.ok db ∧
    update_conversation_summary db cid s cf = Except.ok db ∧
    mark_first_response db cid now = Except.ok db := by
  unfold update_conversation_type update_conversation_summary mark_first_response
  rw [h]
  exact ⟨rfl, rfl, rfl⟩

/-- Witness for the amended C9 at a concrete input. -/
theorem C9_witness :
    update_conversation_type emptyDB 2 QuestionType.OTHER = Except.ok emptyDB ∧
    update_conversation_summary emptyDB 2 "s2" true = Except.ok emptyDB ∧
    mark_first_response emptyDB 2 7 = Except.ok emptyDB :=
  C9_notfound_silent_noop emptyDB 2 QuestionType.OTHER "s2" true 7 rfl

/-- Claim C10: a channel id missing from the configuration is not enabled,
and both the message handler and the reaction handler return before any
store write when the event's channel is not enabled — the store comes back
exactly as it was. -/
theorem C10_disabled_channel_no_store_write
    (channels : List ChannelConfig) (db : DB) (process : DB → DB)
    (mev : MessageEvent) (rev : ReactionEvent) (ch : String) (now : Nat) :
    (get_channel_config channels ch = none →
      is_channel_enabled channels ch = false) ∧
    (is_channel_enabled channels mev.channel = false →
      handle_message channels process db mev now = db) ∧
    (is_channel_enabled channels rev.channel = false →
      handle_reaction_added channels db rev = db) := by
  refine ⟨?_, ?_, ?_⟩
  · intro h
    unfold is_channel_enabled
    rw [h]
  · intro h
    unfold handle_message
    split
    · rfl
    · simp [h]
  · intro h
    unfold handle_reaction_added
    simp [h]

/-- Witness for C10 at a concrete input: channel "CX" is unknown to an
empty configuration, and both handlers leave the empty store unchanged. -/
theorem C10_witness :
    is_channel_enabled [] "CX" = false ∧
    handle_message [] id emptyDB messageEventCX 0 = emptyDB ∧
    handle_reaction_added [] emptyDB reactionEventCX = emptyDB :=
  ⟨(C10_disabled_channel_no_store_write [] emptyDB id messageEventCX
      reactionEventCX "CX" 0).1 rfl,
   (C10_disabled_channel_no_store_write [] emptyDB id messageEventCX
      reactionEventCX "CX" 0).2.1 rfl,
   (C10_disabled_channel_no_store_write [] emptyDB id messageEventCX
      reactionEventCX "CX" 0).2.2 rfl⟩

end SlackHelperBot
